import Mathlib

/-!
# Verification of the Medic_Chatbot backend (src/app.py)

A shallow embedding of the Flask backend `app.py` of the Medic_Chatbot
repository.  The program is a single request handler (`chat_api`) that
dispatches an incoming chat request to document extractors
(`read_pdf_text`, `read_docx_text`), prompt builders
(`analyze_text_content`, the inline symptom template), and the Gemini
HTTP gateway (`call_gemini_api`, `analyze_image_with_gemini`).

External effects (the `base64` decoder, the `pypdf` and `python-docx`
parsers, and the outbound HTTP POST performed by `requests`) are
modelled by an environment `Env` of oracles; each Python `try/except`
becomes an explicit `Option`/`Except`/sum-type match, so every function
here is total exactly where the Python function cannot raise, and the
places where Python *can* raise are explicit constructors.
-/

namespace MedicChatbot

/-- Raw file bytes (the result of `base64.b64decode`). -/
abbrev Bytes := List Nat

/-- Python truthiness of an optional string field obtained from
`data.get(...)`: `None` and `""` are falsy, any non-empty string is
truthy.  Models `if file_data_b64 and file_type:` / `elif user_message:`. -/
def pyTruthy : Option String → Bool
  | none => false
  | some s => !(s == "")

/-- Python f-string rendering of an optional string: `None` renders as
the four characters `"None"` inside an f-string. -/
def pyStr : Option String → String
  | none => "None"
  | some s => s

/-- The JSON object fields of a chat request: `data.get('message')`,
`data.get('fileData')`, `data.get('fileType')`, `data.get('fileName')`
(app.py lines 151-155).  All optional. -/
structure ChatRequest where
  message : Option String
  fileData : Option String
  fileType : Option String
  fileName : Option String
deriving DecidableEq

/-- The body of the incoming POST as seen by `request.get_json()`:
either it is not parseable JSON (Flask's `get_json` raises a
`BadRequest` before the handler's `try` block is entered), or it parses
to a non-object value (so `data.get('message')` on line 152 raises an
`AttributeError` outside the `try` block), or it is a JSON object. -/
inductive JsonBody
  | notJson
  | notObject
  | obj (r : ChatRequest)
deriving DecidableEq

/-- One part of an outbound Gemini request body: a `{"text": ...}` part
or an `{"inlineData": {"mimeType": ..., "data": ...}}` part. -/
inductive GeminiPart
  | text (t : String)
  | inlineData (mimeType : String) (data : String)
deriving DecidableEq

/-- Whether a request part is an inline-binary part. -/
def GeminiPart.isInline : GeminiPart → Bool
  | .inlineData _ _ => true
  | .text _ => false

/-- The JSON payload POSTed to the Gemini endpoint: the text-generation
shape `{"contents":[{"role":"user","parts":[{"text": prompt}]}]}` (app.py
lines 60-62) or the vision shape with a parts list (lines 88-104). -/
inductive OutboundPayload
  | text (prompt : String)
  | image (parts : List GeminiPart)
deriving DecidableEq

/-- One part of a Gemini JSON response; `text` is `none` when the part
object has no `'text'` key (so `parts[0]['text']` raises `KeyError`). -/
structure RespPart where
  text : Option String
deriving DecidableEq

/-- The `content` object of a response candidate. -/
structure RespContent where
  parts : List RespPart
deriving DecidableEq

/-- One candidate of a Gemini JSON response; `content` is `none` when
the candidate has no truthy `'content'` value. -/
structure Candidate where
  content : Option RespContent
deriving DecidableEq

/-- A parsed Gemini JSON response body. -/
structure GeminiResult where
  candidates : List Candidate
deriving DecidableEq

/-- Outcome of one `requests.post(...)` call followed by
`raise_for_status()` and `response.json()`:
* `transportError` — `requests.exceptions.RequestException`, which covers
  network/DNS/timeout failures and, via `raise_for_status()`, every
  non-2xx status (`HTTPError` is a subclass of `RequestException`);
* `okBadJson` — a 2xx response whose body is not valid JSON, so
  `response.json()` raises (caught by the generic `except Exception`);
* `okJson result` — a 2xx response with a parsed JSON body. -/
inductive HttpOutcome
  | transportError
  | okBadJson
  | okJson (result : GeminiResult)
deriving DecidableEq

/-- The external world of app.py: `base64.b64decode` (which raises
`binascii.Error`, carried here as the exception's string, on invalid
input), the `pypdf` page list (each page's `extract_text()` result,
`none` when it yields no text), the `python-docx` paragraph list, and
the outcome of the single outbound HTTP POST, keyed by the payload. -/
structure Env where
  b64decode : String → Except String Bytes
  pdfParse : Bytes → Option (List (Option String))
  docxParse : Bytes → Option (List String)
  post : OutboundPayload → HttpOutcome

/-- `read_pdf_text` (app.py lines 28-40): parse the bytes with
`PdfReader`; on success concatenate `page.extract_text() or ""` over the
pages in order and return the text (possibly `""`); if the parse raises,
the `except` returns `None`, i.e. `none` here. -/
def read_pdf_text (env : Env) (file_content_bytes : Bytes) : Option String :=
  match env.pdfParse file_content_bytes with
  | none => none
  | some pages => some (pages.foldl (fun text p => text ++ (p.getD "")) "")

/-- `read_docx_text` (app.py lines 42-53): parse the bytes with
`Document`; on success concatenate `paragraph.text + "\n"` over the
paragraphs in order; if the parse raises, return `None`. -/
def read_docx_text (env : Env) (file_content_bytes : Bytes) : Option String :=
  match env.docxParse file_content_bytes with
  | none => none
  | some paras => some (paras.foldl (fun text p => text ++ p ++ "\n") "")

/-- Fallback string of `call_gemini_api` for a transport failure or
non-2xx status (app.py line 77). -/
def geminiConnectFallback : String :=
  "Sorry, I couldn't connect to the AI service. Please try again later."

/-- Fallback string of `call_gemini_api` for a 2xx response whose JSON
lacks the candidates/content/parts shape (app.py line 73). -/
def geminiMalformedFallback : String :=
  "Sorry, I received an unexpected response from the AI. Please try again."

/-- Fallback string of `call_gemini_api` for any other internal
exception (app.py line 81). -/
def geminiInternalFallback : String :=
  "An internal error occurred. Please try again."

/-- The truthiness test on app.py line 68:
`result.get('candidates') and result['candidates'][0].get('content') and
result['candidates'][0]['content'].get('parts')` — the candidates list
is non-empty, its first element has a truthy content, and that content
has a non-empty parts list. -/
def geminiShapeOk : GeminiResult → Bool
  | ⟨[]⟩ => false
  | ⟨c :: _⟩ =>
    match c.content with
    | none => false
    | some ct => !ct.parts.isEmpty

/-- `result['candidates'][0]['content']['parts'][0]['text']` when the
shape test passed; `none` when the first part lacks a `'text'` key. -/
def geminiFirstText : GeminiResult → Option String
  | ⟨[]⟩ => none
  | ⟨c :: _⟩ =>
    match c.content with
    | none => none
    | some ct =>
      match ct.parts with
      | [] => none
      | p :: _ => p.text

/-- `call_gemini_api` (app.py lines 56-81), as a function of the HTTP
outcome: a `RequestException` (transport error or non-2xx) yields the
connectivity fallback; a 2xx body that is not JSON raises inside the
`try` and is caught by the generic `except Exception`, yielding the
internal-error fallback; a parsed body failing the shape test yields the
malformed-response fallback; a first part without a `'text'` key raises
`KeyError`, again caught as an internal error; otherwise the first text
is returned. -/
def call_gemini_api (outcome : HttpOutcome) : String :=
  match outcome with
  | .transportError => geminiConnectFallback
  | .okBadJson => geminiInternalFallback
  | .okJson result =>
    if geminiShapeOk result then
      match geminiFirstText result with
      | some t => t
      | none => geminiInternalFallback
    else
      geminiMalformedFallback

/-- The request body built by `analyze_image_with_gemini` (app.py lines
88-104): the fixed instructional text parts (Description / Findings /
Concerns / Recommendations) followed by exactly one inline-data part
carrying the declared mime type and the base64 payload. -/
def analyze_image_payload (base64_image : String) (mime_type : String) :
    List GeminiPart :=
  [ .text "Analyze this medical image and provide:",
    .text "1. **Description**: What the image shows",
    .text "2. **Findings**: Notable observations",
    .text "3. **Concerns**: Any potential issues",
    .text "4. **Recommendations**: Suggested next steps",
    .inlineData mime_type base64_image ]

/-- Vision-variant transport-failure fallback (app.py line 119). -/
def visionConnectFallback : String :=
  "Sorry, I couldn't process the image with the AI service. Please try again later."

/-- Vision-variant malformed-response fallback (app.py line 115). -/
def visionMalformedFallback : String :=
  "Sorry, I received an unexpected response from the AI Vision service. Please try again."

/-- Vision-variant internal-error fallback (app.py line 123). -/
def visionInternalFallback : String :=
  "An internal error occurred during image analysis. Please try again."

/-- Response handling of `analyze_image_with_gemini` (app.py lines
106-123): same structure as `call_gemini_api`, with the vision-specific
fallback strings. -/
def analyze_image_with_gemini (outcome : HttpOutcome) : String :=
  match outcome with
  | .transportError => visionConnectFallback
  | .okBadJson => visionInternalFallback
  | .okJson result =>
    if geminiShapeOk result then
      match geminiFirstText result with
      | some t => t
      | none => visionInternalFallback
    else
      visionMalformedFallback

/-- The prompt built by `analyze_text_content` (app.py lines 127-133):
the f-string interpolating `file_name` and the full `text_content`. -/
def analyze_text_content_prompt (text_content : String) (file_name : String) :
    String :=
  "Analyze the following medical report/text content from '" ++ file_name ++
  "' and provide:\n1. **Summary**: Brief overview of the findings\n2. **Key Metrics**: Important values and their significance\n3. **Potential Concerns**: Any abnormal values or findings\n4. **Recommendations**: Suggested next steps or actions\n\nReport content: " ++
  text_content

/-- `analyze_text_content` (app.py lines 125-135): builds the prompt and
calls `call_gemini_api` on it. -/
def analyze_text_content (env : Env) (text_content : String)
    (file_name : String) : String :=
  call_gemini_api (env.post (.text (analyze_text_content_prompt text_content file_name)))

/-- The symptom-description prompt built inline in `chat_api` (app.py
lines 185-195), interpolating the raw user message. -/
def symptom_prompt (user_message : String) : String :=
  "The user is describing a health issue. Provide comprehensive information based on their description, covering the following aspects clearly and concisely, using markdown for readability:\n1.  **Symptoms:** List the symptoms associated with the described issue.\n2.  **Possible Diseases/Conditions:** Suggest potential diseases or conditions that match the symptoms.\n3.  **Home Remedies:** Suggest what action or food item can be taken at home to cure or feel better according to the disease.\n4.  **Dietary Advice:** Recommend what can be eaten or avoided to help manage or cure the condition.\n5.  **Medicines (General Advice):** Provide general types of over-the-counter or common medicines that might be used (stressing this is not medical advice and a doctor should be consulted).\n6.  **Exercises/Activities:** Suggest exercises or activities that could be beneficial, or those to avoid.\n7.  7. **Other Relevant Information:** Include any other important tips, precautions, or when to seek professional medical help.\n\nUser's health issue: \"" ++ user_message ++ "\"\n"

/-- Decoder state of the streaming UTF-8 decoder: `need` continuation
bytes still expected, `acc` the code-point bits accumulated so far, and
`lo`/`hi` the admissible range of the next continuation byte (the range
is narrowed after the start bytes `E0`, `ED`, `F0`, `F4` to exclude
overlong forms and surrogates, exactly as a strict UTF-8 decoder does). -/
structure Utf8State where
  need : Nat
  acc : Nat
  lo : Nat
  hi : Nat
deriving DecidableEq

/-- The idle decoder state (no sequence in progress). -/
def utf8Idle : Utf8State := ⟨0, 0, 0, 0⟩

/-- Process one byte in start position: an ASCII byte is emitted
directly, a valid leading byte opens a multi-byte sequence, and any
other byte (a stray continuation byte, `C0`/`C1`, or `F5`-`FF`) is
invalid and dropped — which is what `errors='ignore'` does. -/
def utf8Start (b : Nat) : Option Char × Utf8State :=
  if b < 0x80 then (some (Char.ofNat b), utf8Idle)
  else if 0xC2 ≤ b && b ≤ 0xDF then (none, ⟨1, b - 0xC0, 0x80, 0xBF⟩)
  else if b == 0xE0 then (none, ⟨2, 0, 0xA0, 0xBF⟩)
  else if b == 0xED then (none, ⟨2, 0xD, 0x80, 0x9F⟩)
  else if 0xE1 ≤ b && b ≤ 0xEF then (none, ⟨2, b - 0xE0, 0x80, 0xBF⟩)
  else if b == 0xF0 then (none, ⟨3, 0, 0x90, 0xBF⟩)
  else if b == 0xF4 then (none, ⟨3, 4, 0x80, 0x8F⟩)
  else if 0xF1 ≤ b && b ≤ 0xF3 then (none, ⟨3, b - 0xF0, 0x80, 0xBF⟩)
  else (none, utf8Idle)

/-- Feed one byte to the decoder: in start position dispatch on the
byte; inside a sequence accept an admissible continuation byte
(completing the character when it was the last one) or, on an
inadmissible byte, drop the unfinished sequence and reprocess the byte
in start position — the behavior of `errors='ignore'`. -/
def utf8Feed (st : Utf8State) (b : Nat) : Option Char × Utf8State :=
  if st.need == 0 then utf8Start b
  else if st.lo ≤ b && b ≤ st.hi then
    if st.need == 1 then (some (Char.ofNat (st.acc * 0x40 + (b - 0x80))), utf8Idle)
    else (none, ⟨st.need - 1, st.acc * 0x40 + (b - 0x80), 0x80, 0xBF⟩)
  else utf8Start b

/-- Run the decoder over the byte list; an unfinished sequence at the
end of input is dropped (again as `errors='ignore'` prescribes). -/
def utf8IgnoreGo (st : Utf8State) : Bytes → List Char
  | [] => []
  | b :: rest =>
    match utf8Feed st b with
    | (some c, st2) => c :: utf8IgnoreGo st2 rest
    | (none, st2) => utf8IgnoreGo st2 rest

/-- UTF-8 decoding with `errors='ignore'` (app.py line 179,
`file_content_bytes.decode('utf-8', errors='ignore')`): decode the byte
list, silently dropping bytes that do not form a valid UTF-8 sequence;
this function is total — no byte content makes it fail. -/
def utf8DecodeIgnore (b : Bytes) : String :=
  ⟨utf8IgnoreGo utf8Idle b⟩

/-- `leadsWith sub l` decides whether the character list `sub` is an
initial segment of `l`. -/
def leadsWith : List Char → List Char → Bool
  | [], _ => true
  | _ :: _, [] => false
  | a :: s, b :: l => a == b && leadsWith s l

/-- Python's `str.startswith`: character-level prefix test (app.py line
163, `file_type.startswith('image/')`). -/
def pyStartsWith (s p : String) : Bool :=
  leadsWith p.data s.data

/-- `listContains l sub` decides whether `sub` occurs as a contiguous
segment of `l`. -/
def listContains : List Char → List Char → Bool
  | [], sub => sub.isEmpty
  | c :: t, sub => leadsWith sub (c :: t) || listContains t sub

/-- `strContains s sub`: the string `sub` occurs verbatim inside `s`. -/
def strContains (s sub : String) : Prop :=
  ∃ pre post : List Char, s.data = pre ++ sub.data ++ post

/-- One observable call to an external collaborator made while handling
a request, in order: the base64 decode of `fileData`, a document
extractor invocation, or an AI Gateway invocation (`generateText` is a
`call_gemini_api` call carrying the built prompt, `analyzeImage` is an
`analyze_image_with_gemini` call carrying the base64 string and mime
type the handler passed). -/
inductive Event
  | b64decode (s : String)
  | pdfExtract (bytes : Bytes)
  | docxExtract (bytes : Bytes)
  | generateText (prompt : String)
  | analyzeImage (base64Image : String) (mimeType : String)
deriving DecidableEq

/-- Whether an event is an AI Gateway invocation. -/
def Event.isAI : Event → Bool
  | .generateText _ => true
  | .analyzeImage _ _ => true
  | _ => false

/-- Whether an event touches the file fields at all (decode, extraction
or image analysis). -/
def Event.isFileOp : Event → Bool
  | .b64decode _ => true
  | .pdfExtract _ => true
  | .docxExtract _ => true
  | .analyzeImage _ _ => true
  | .generateText _ => false

/-- The HTTP-level result of `chat_api`:
* `ok s` — `200` with body `{"response": s}` (app.py line 198);
* `err500 m` — `500` with body `{"error": m}` from the handler's own
  `except` clause (line 202);
* `badRequest` — Flask's `400 BadRequest` raised by `request.get_json()`
  on an unparseable body, outside the handler's `try`;
* `unhandled` — an exception escaped `chat_api` itself (raised before
  the `try` block), surfacing as the framework's generic error page. -/
inductive HandlerResult
  | ok (response : String)
  | err500 (message : String)
  | badRequest
  | unhandled
deriving DecidableEq

/-- The DOCX MIME string tested on app.py line 171. -/
def docxMime : String :=
  "application/vnd.openxmlformats-officedocument.wordprocessingml.document"

/-- The fallback response when `read_pdf_text` yields no truthy text
(app.py line 170). -/
def pdfFailMsg (file_name : String) : String :=
  "Could not extract text from PDF '" ++ file_name ++
  "'. Please ensure it's a readable PDF or describe its content in text."

/-- The fallback response when `read_docx_text` yields no truthy text
(app.py line 176). -/
def docxFailMsg (file_name : String) : String :=
  "Could not extract text from DOCX '" ++ file_name ++
  "'. Please ensure it's a valid DOCX file or describe its content in text."

/-- The unsupported-file-type response (app.py line 182). -/
def unsupportedMsg (file_type : String) : String :=
  "Unsupported file type for analysis: " ++ file_type ++
  ". Please upload a PDF, DOCX, image, or plain text file."

/-- The body of `chat_api`'s `try` block (app.py lines 159-198) on an
object body, paired with the trace of external calls it makes.  Mirrors
the source line by line: the `if file_data_b64 and file_type:` guard,
the base64 decode (whose failure is caught by the handler's `except`
clause and reported as the 500 JSON error of line 202), then the
dispatch on `fileType`, the `elif user_message:` symptom branch, and the
final `return jsonify({'response': bot_response})`. -/
def chat_api_core (env : Env) (r : ChatRequest) :
    HandlerResult × List Event :=
  if pyTruthy r.fileData && pyTruthy r.fileType then
    let fd := r.fileData.getD ""
    let ft := r.fileType.getD ""
    let fn := pyStr r.fileName
    match env.b64decode fd with
    | .error e =>
      (.err500 ("An internal server error occurred: " ++ e), [.b64decode fd])
    | .ok file_content_bytes =>
      if pyStartsWith ft "image/" then
        (.ok (analyze_image_with_gemini (env.post (.image (analyze_image_payload fd ft)))),
         [.b64decode fd, .analyzeImage fd ft])
      else if ft = "application/pdf" then
        match read_pdf_text env file_content_bytes with
        | some extracted_text =>
          -- `if extracted_text:` — Python truthiness of the string
          if extracted_text ≠ "" then
            (.ok (analyze_text_content env extracted_text fn),
             [.b64decode fd, .pdfExtract file_content_bytes,
              .generateText (analyze_text_content_prompt extracted_text fn)])
          else
            (.ok (pdfFailMsg fn), [.b64decode fd, .pdfExtract file_content_bytes])
        | none =>
          (.ok (pdfFailMsg fn), [.b64decode fd, .pdfExtract file_content_bytes])
      else if ft = docxMime then
        match read_docx_text env file_content_bytes with
        | some extracted_text =>
          if extracted_text ≠ "" then
            (.ok (analyze_text_content env extracted_text fn),
             [.b64decode fd, .docxExtract file_content_bytes,
              .generateText (analyze_text_content_prompt extracted_text fn)])
          else
            (.ok (docxFailMsg fn), [.b64decode fd, .docxExtract file_content_bytes])
        | none =>
          (.ok (docxFailMsg fn), [.b64decode fd, .docxExtract file_content_bytes])
      else if ft = "text/plain" then
        let decoded_text := utf8DecodeIgnore file_content_bytes
        (.ok (analyze_text_content env decoded_text fn),
         [.b64decode fd, .generateText (analyze_text_content_prompt decoded_text fn)])
      else
        (.ok (unsupportedMsg ft), [.b64decode fd])
  else if pyTruthy r.message then
    let m := r.message.getD ""
    (.ok (call_gemini_api (env.post (.text (symptom_prompt m)))),
     [.generateText (symptom_prompt m)])
  else
    (.ok "", [])

/-- `chat_api` (app.py lines 148-202).  `request.get_json()` and the
four `data.get(...)` field extractions (lines 151-155) run before the
`try` block: a body that is not JSON makes `get_json` raise Flask's
`BadRequest`, and a JSON body that is not an object makes
`data.get('message')` raise `AttributeError`; both escape the handler
uncaught.  Only on an object body is the `try` block entered. -/
def chat_api (env : Env) (body : JsonBody) : HandlerResult × List Event :=
  match body with
  | .notJson => (.badRequest, [])
  | .notObject => (.unhandled, [])
  | .obj r => chat_api_core env r

/-! ## Concrete environments and requests used to instantiate the theorems -/

/-- An environment whose PDF parser succeeds on the byte `[65]` with a
single page that yields no text (`extract_text()` returns `None`), as a
scanned image-only PDF does. -/
def envPdfEmpty : Env where
  b64decode := fun s => if s = "QQ==" then .ok [65] else .error "Incorrect padding"
  pdfParse := fun b => if b = [65] then some [none] else none
  docxParse := fun _ => none
  post := fun _ => .transportError

/-- An environment whose PDF parser succeeds on the byte `[65]` with a
single page whose extracted text is `"BP 120/80"`. -/
def envPdfText : Env where
  b64decode := fun s => if s = "QQ==" then .ok [65] else .error "Incorrect padding"
  pdfParse := fun b => if b = [65] then some [some "BP 120/80"] else none
  docxParse := fun _ => none
  post := fun _ => .transportError

/-- An environment whose DOCX parser fails on every input (the library
raises, `read_docx_text` returns `None`). -/
def envDocxFail : Env where
  b64decode := fun s => if s = "QQ==" then .ok [65] else .error "Incorrect padding"
  pdfParse := fun _ => none
  docxParse := fun _ => none
  post := fun _ => .transportError

/-- An environment whose base64 decoder raises on every input, with the
message `binascii.Error` produces for the one-character input `"A"`. -/
def envB64Fail : Env where
  b64decode := fun _ => .error
    "Invalid base64-encoded string: number of data characters (1) cannot be 1 more than a multiple of 4"
  pdfParse := fun _ => none
  docxParse := fun _ => none
  post := fun _ => .transportError

/-- An environment whose base64 decoder decodes `"/0E="` to the bytes
`[0xFF, 0x41]` — `0xFF` is not valid UTF-8. -/
def envPlain : Env where
  b64decode := fun s => if s = "/0E=" then .ok [255, 65] else .error "Incorrect padding"
  pdfParse := fun _ => none
  docxParse := fun _ => none
  post := fun _ => .transportError

/-- A PDF upload request: no message, `fileData` `"QQ=="`, `fileType`
`application/pdf`, `fileName` `scan.pdf`. -/
def reqPdf : ChatRequest :=
  ⟨none, some "QQ==", some "application/pdf", some "scan.pdf"⟩

/-- A DOCX upload request. -/
def reqDocx : ChatRequest :=
  ⟨none, some "QQ==", some docxMime, some "report.docx"⟩

/-- An unsupported-type upload whose `fileData` `"A"` is not valid
base64. -/
def reqZipBad : ChatRequest :=
  ⟨none, some "A", some "application/zip", some "archive.zip"⟩

/-- An unsupported-type upload with decodable `fileData`. -/
def reqZip : ChatRequest :=
  ⟨none, some "QQ==", some "application/zip", some "archive.zip"⟩

/-- An image upload whose `fileData` `"A"` is not valid base64. -/
def reqImgBad : ChatRequest :=
  ⟨none, some "A", some "image/png", some "xray.png"⟩

/-- An image upload with decodable `fileData`. -/
def reqImg : ChatRequest :=
  ⟨none, some "QQ==", some "image/png", some "xray.png"⟩

/-- A plain-text upload whose decoded bytes `[0xFF, 0x41]` are not valid
UTF-8. -/
def reqText : ChatRequest :=
  ⟨none, some "/0E=", some "text/plain", some "notes.txt"⟩

/-- A request with no message and no file fields. -/
def reqEmpty : ChatRequest :=
  ⟨none, none, none, none⟩

/-- A request with a message and a dangling `fileData` without
`fileType`. -/
def reqMsgDangling : ChatRequest :=
  ⟨some "I have a headache", some "QQ==", none, none⟩

/-! ## Helper lemmas -/

/-- Soundness of `leadsWith`: a successful test yields an explicit
decomposition. -/
theorem leadsWith_spec :
    ∀ sub l : List Char, leadsWith sub l = true → ∃ t, l = sub ++ t := by
  intro sub
  induction sub with
  | nil => exact fun l _ => ⟨l, rfl⟩
  | cons a s ih =>
    intro l h
    cases l with
    | nil => simp [leadsWith] at h
    | cons b t =>
      simp only [leadsWith, Bool.and_eq_true, beq_iff_eq] at h
      obtain ⟨t2, ht⟩ := ih t h.2
      exact ⟨t2, by simp [h.1, ht]⟩

/-- Soundness of `listContains`: a successful test yields an explicit
infix decomposition. -/
theorem listContains_spec :
    ∀ l sub : List Char, listContains l sub = true →
      ∃ pre post, l = pre ++ sub ++ post := by
  intro l
  induction l with
  | nil =>
    intro sub h
    simp only [listContains, List.isEmpty_iff] at h
    exact ⟨[], [], by simp [h]⟩
  | cons c t ih =>
    intro sub h
    simp only [listContains, Bool.or_eq_true] at h
    rcases h with h | h
    · obtain ⟨t2, ht⟩ := leadsWith_spec sub (c :: t) h
      exact ⟨[], t2, by simp [ht]⟩
    · obtain ⟨pre, post, hp⟩ := ih sub h
      exact ⟨c :: pre, post, by simp [hp]⟩

/-- Containment transfers from a decided `listContains` check. -/
theorem strContains_of_check (s sub : String)
    (h : listContains s.data sub.data = true) : strContains s sub :=
  listContains_spec s.data sub.data h

/-- Every string occurs in itself. -/
theorem strContains_refl (s : String) : strContains s s :=
  ⟨[], [], by simp⟩

/-- Containment is preserved by appending on the right. -/
theorem strContains_append_left (a b sub : String)
    (h : strContains a sub) : strContains (a ++ b) sub := by
  obtain ⟨pre, post, hp⟩ := h
  exact ⟨pre, post ++ b.data, by simp [hp]⟩

/-- Containment is preserved by appending on the left. -/
theorem strContains_append_right (a b sub : String)
    (h : strContains b sub) : strContains (a ++ b) sub := by
  obtain ⟨pre, post, hp⟩ := h
  exact ⟨a.data ++ pre, post, by simp [hp]⟩

/-- A string that starts with `"image/"` is not empty. -/
theorem pyStartsWith_image_ne_empty (ft : String)
    (h : pyStartsWith ft "image/" = true) : ft ≠ "" := by
  intro he
  subst he
  simp [pyStartsWith, leadsWith] at h

/-! ## Claim theorems -/

/-- C3 (confirmed): `call_gemini_api` never propagates an error: a
transport error or non-2xx status yields the fixed connectivity
fallback; a 2xx response whose JSON lacks the candidates/content/parts
shape yields the distinct malformed-response fallback; any other
internal exception (a 2xx body that is not JSON, or a first part without
a `'text'` key) yields the third internal-error fallback; the three
fallback strings are pairwise distinct. -/
theorem C3_gateway_fallbacks :
    call_gemini_api .transportError = geminiConnectFallback
    ∧ (∀ res : GeminiResult, geminiShapeOk res = false →
        call_gemini_api (.okJson res) = geminiMalformedFallback)
    ∧ call_gemini_api .okBadJson = geminiInternalFallback
    ∧ (∀ res : GeminiResult, geminiShapeOk res = true →
        geminiFirstText res = none →
        call_gemini_api (.okJson res) = geminiInternalFallback)
    ∧ geminiConnectFallback ≠ geminiMalformedFallback
    ∧ geminiConnectFallback ≠ geminiInternalFallback
    ∧ geminiMalformedFallback ≠ geminiInternalFallback := by
  refine ⟨rfl, ?_, rfl, ?_, by decide, by decide, by decide⟩
  · intro res h
    simp [call_gemini_api, h]
  · intro res h1 h2
    simp [call_gemini_api, h1, h2]

/-- Witness for C3: the fallback classification evaluated at concrete
responses — an empty candidates list and a first part with no text
key. -/
theorem C3_gateway_fallbacks_witness :
    call_gemini_api (.okJson ⟨[]⟩) = geminiMalformedFallback
    ∧ call_gemini_api (.okJson ⟨[⟨some ⟨[⟨none⟩]⟩⟩]⟩) = geminiInternalFallback :=
  ⟨C3_gateway_fallbacks.2.1 ⟨[]⟩ (by decide),
   C3_gateway_fallbacks.2.2.2.1 ⟨[⟨some ⟨[⟨none⟩]⟩⟩]⟩ (by decide) (by decide)⟩

/-- C8 (confirmed): for every extracted text and file name, the
text-content prompt contains the full text and the file name verbatim
and the four fixed labels Summary / Key Metrics / Potential Concerns /
Recommendations; in particular for the one-page PDF text `"BP 120/80"`
and its file name. -/
theorem C8_prompt_contains :
    (∀ t n : String,
      strContains (analyze_text_content_prompt t n) t
      ∧ strContains (analyze_text_content_prompt t n) n
      ∧ strContains (analyze_text_content_prompt t n) "Summary"
      ∧ strContains (analyze_text_content_prompt t n) "Key Metrics"
      ∧ strContains (analyze_text_content_prompt t n) "Potential Concerns"
      ∧ strContains (analyze_text_content_prompt t n) "Recommendations")
    ∧ strContains (analyze_text_content_prompt "BP 120/80" "scan.pdf") "BP 120/80"
    ∧ strContains (analyze_text_content_prompt "BP 120/80" "scan.pdf") "scan.pdf" := by
  have base : ∀ t n : String,
      strContains (analyze_text_content_prompt t n) t
      ∧ strContains (analyze_text_content_prompt t n) n
      ∧ strContains (analyze_text_content_prompt t n) "Summary"
      ∧ strContains (analyze_text_content_prompt t n) "Key Metrics"
      ∧ strContains (analyze_text_content_prompt t n) "Potential Concerns"
      ∧ strContains (analyze_text_content_prompt t n) "Recommendations" := by
    intro t n
    unfold analyze_text_content_prompt
    refine ⟨strContains_append_right _ _ _ (strContains_refl t),
      strContains_append_left _ _ _ (strContains_append_left _ _ _
        (strContains_append_right _ _ _ (strContains_refl n))), ?_, ?_, ?_, ?_⟩
    all_goals
      exact strContains_append_left _ _ _ (strContains_append_right _ _ _
        (strContains_of_check _ _ (by decide)))
  exact ⟨base, (base "BP 120/80" "scan.pdf").1, (base "BP 120/80" "scan.pdf").2.1⟩

/-- C1 is refuted: on a PDF whose bytes parse successfully but whose
single page yields no text, the extractor succeeds (`read_pdf_text`
returns `some ""`, not the failure signal `none`), yet the handler
returns the apologetic fallback naming the file and never calls
`generateText` — because line 167's `if extracted_text:` treats the
empty string like the failure signal. -/
theorem C1_counterexample :
    read_pdf_text envPdfEmpty [65] = some ""
    ∧ envPdfEmpty.pdfParse [65] = some [none]
    ∧ chat_api envPdfEmpty (.obj reqPdf) =
        (.ok (pdfFailMsg "scan.pdf"), [.b64decode "QQ==", .pdfExtract [65]])
    ∧ (chat_api envPdfEmpty (.obj reqPdf)).2.any Event.isAI = false := by
  refine ⟨by decide, by decide, by decide, by decide⟩

/-- C1 (corrected): for a PDF upload whose bytes the extractor parses
successfully, the handler takes the success branch (text-content prompt,
`generateText` call) only when the concatenated extracted text is
non-empty; the apologetic fallback naming the file is returned both when
the extractor signals failure and when it succeeds with empty text.  The
extractor itself does treat a parseable no-text document as a success
(`read_pdf_text` never returns `none` when the parse succeeds). -/
theorem C1_pdf_dispatch (env : Env) (r : ChatRequest) (fd : String)
    (bytes : Bytes)
    (h1 : r.fileData = some fd) (h2 : fd ≠ "")
    (h3 : r.fileType = some "application/pdf")
    (h4 : env.b64decode fd = .ok bytes) :
    (∀ t, read_pdf_text env bytes = some t → t ≠ "" →
      chat_api env (.obj r) =
        (.ok (analyze_text_content env t (pyStr r.fileName)),
         [.b64decode fd, .pdfExtract bytes,
          .generateText (analyze_text_content_prompt t (pyStr r.fileName))]))
    ∧ (∀ t, read_pdf_text env bytes = some t → t = "" →
      chat_api env (.obj r) =
        (.ok (pdfFailMsg (pyStr r.fileName)), [.b64decode fd, .pdfExtract bytes]))
    ∧ (read_pdf_text env bytes = none →
      chat_api env (.obj r) =
        (.ok (pdfFailMsg (pyStr r.fileName)), [.b64decode fd, .pdfExtract bytes]))
    ∧ (∀ pages, env.pdfParse bytes = some pages → read_pdf_text env bytes ≠ none) := by
  refine ⟨?_, ?_, ?_, ?_⟩
  · intro t ht hne
    simp [chat_api, chat_api_core, pyTruthy, h1, h2, h3, h4, ht, hne, pyStartsWith, leadsWith]
  · intro t ht he
    subst he
    simp [chat_api, chat_api_core, pyTruthy, h1, h2, h3, h4, ht, pyStartsWith, leadsWith]
  · intro ht
    simp [chat_api, chat_api_core, pyTruthy, h1, h2, h3, h4, ht, pyStartsWith, leadsWith]
  · intro pages hp
    simp [read_pdf_text, hp]

/-- Witness for C1: on the no-text PDF environment the fallback branch
is taken, and on the environment extracting `"BP 120/80"` the success
branch builds the prompt and calls `generateText`. -/
theorem C1_pdf_dispatch_witness :
    chat_api envPdfEmpty (.obj reqPdf) =
      (.ok (pdfFailMsg "scan.pdf"), [.b64decode "QQ==", .pdfExtract [65]])
    ∧ chat_api envPdfText (.obj reqPdf) =
      (.ok (analyze_text_content envPdfText "BP 120/80" "scan.pdf"),
       [.b64decode "QQ==", .pdfExtract [65],
        .generateText (analyze_text_content_prompt "BP 120/80" "scan.pdf")]) :=
  ⟨(C1_pdf_dispatch envPdfEmpty reqPdf "QQ==" [65] rfl (by decide) rfl
      (by rfl)).2.1 "" (by decide) rfl,
   (C1_pdf_dispatch envPdfText reqPdf "QQ==" [65] rfl (by decide) rfl
      (by rfl)).1 "BP 120/80" (by rfl) (by decide)⟩

/-- C2 is refuted: a request whose body is valid JSON but not a JSON
object (for example the body `[1, 2]`, or `null`) makes
`data.get('message')` on line 152 raise an `AttributeError` *before* the
`try` block of line 159 is entered, so the failure escapes the handler
as an unhandled fault instead of the 500 JSON error object built on line
202. -/
theorem C2_counterexample :
    chat_api envPdfEmpty .notObject = (.unhandled, [])
    ∧ (∀ m, HandlerResult.unhandled ≠ HandlerResult.err500 m)
    ∧ (∀ s, HandlerResult.unhandled ≠ HandlerResult.ok s) :=
  ⟨rfl, fun _ h => HandlerResult.noConfusion h,
   fun _ h => HandlerResult.noConfusion h⟩

/-- C2 (corrected): the catch-all covers the dispatch from the base64
decode of `fileData` onward: on a JSON-object body every outcome is
either a 200 success payload or, exactly when the base64 decode raises,
the 500 JSON error carrying the exception's string representation.  JSON
body parsing and field extraction run before the `try` block, so a
non-object body surfaces as an unhandled fault instead. -/
theorem C2_catch_all (env : Env) (r : ChatRequest) :
    (∃ s, (chat_api env (.obj r)).1 = .ok s)
    ∨ (∃ e, env.b64decode (r.fileData.getD "") = .error e
        ∧ (chat_api env (.obj r)).1 =
            .err500 ("An internal server error occurred: " ++ e)) := by
  simp only [chat_api, chat_api_core]
  repeat' split
  all_goals
    first
      | exact Or.inl ⟨_, rfl⟩
      | (rename_i e heq; exact Or.inr ⟨e, heq, rfl⟩)

/-- C4 is refuted on an undecodable payload: a request with an
unsupported `fileType` whose `fileData` is not valid base64 (here the
one-character string `"A"`) reaches the base64 decode on line 162 before
the type dispatch, raises there, and is answered by the catch-all with a
500 JSON error — not a 200 response containing the declared type. -/
theorem C4_counterexample :
    chat_api envB64Fail (.obj reqZipBad) =
      (.err500 ("An internal server error occurred: Invalid base64-encoded string: number of data characters (1) cannot be 1 more than a multiple of 4"),
       [.b64decode "A"])
    ∧ (chat_api envB64Fail (.obj reqZipBad)).1 ≠ .ok (unsupportedMsg "application/zip") := by
  refine ⟨by decide, by decide⟩

/-- C4 (corrected): for every request carrying `fileData` and an
unsupported `fileType` (not an `image/` prefix, not `application/pdf`,
not the DOCX MIME string, not `text/plain`) *whose `fileData`
base64-decodes successfully*, the AI Gateway is never invoked and the
200 response string contains the literal declared `fileType` value. -/
theorem C4_unsupported_type (env : Env) (r : ChatRequest) (fd ft : String)
    (bytes : Bytes)
    (h1 : r.fileData = some fd) (h2 : fd ≠ "")
    (h3 : r.fileType = some ft) (h4 : ft ≠ "")
    (h5 : pyStartsWith ft "image/" = false)
    (h6 : ft ≠ "application/pdf") (h7 : ft ≠ docxMime) (h8 : ft ≠ "text/plain")
    (h9 : env.b64decode fd = .ok bytes) :
    chat_api env (.obj r) = (.ok (unsupportedMsg ft), [.b64decode fd])
    ∧ strContains (unsupportedMsg ft) ft
    ∧ (chat_api env (.obj r)).2.any Event.isAI = false := by
  have hmain : chat_api env (.obj r) = (.ok (unsupportedMsg ft), [.b64decode fd]) := by
    simp [chat_api, chat_api_core, pyTruthy, h1, h2, h3, h4, h5, h6, h7, h8, h9]
  refine ⟨hmain, ?_, by simp [hmain, Event.isAI]⟩
  unfold unsupportedMsg
  exact strContains_append_left _ _ _
    (strContains_append_right _ _ _ (strContains_refl ft))

/-- Witness for C4: an `application/zip` upload with decodable
`fileData` gets the unsupported-type answer and no AI call. -/
theorem C4_unsupported_type_witness :
    chat_api envPdfEmpty (.obj reqZip) =
      (.ok (unsupportedMsg "application/zip"), [.b64decode "QQ=="])
    ∧ strContains (unsupportedMsg "application/zip") "application/zip"
    ∧ (chat_api envPdfEmpty (.obj reqZip)).2.any Event.isAI = false :=
  C4_unsupported_type envPdfEmpty reqZip "QQ==" "application/zip" [65]
    rfl (by decide) rfl (by decide) (by decide) (by decide) (by decide)
    (by decide) (by rfl)

/-- C5 (confirmed): when the PDF or DOCX extractor signals failure, the
handler answers 200 with a fallback string containing the literal
`fileName` from the request, and nothing raises to the HTTP layer. -/
theorem C5_extraction_failure (env : Env) (r : ChatRequest) (fd n : String)
    (bytes : Bytes)
    (h1 : r.fileData = some fd) (h2 : fd ≠ "") (h3 : r.fileName = some n)
    (h4 : env.b64decode fd = .ok bytes)
    (h5 : (r.fileType = some "application/pdf" ∧ env.pdfParse bytes = none)
        ∨ (r.fileType = some docxMime ∧ env.docxParse bytes = none)) :
    ∃ s, (chat_api env (.obj r)).1 = .ok s ∧ strContains s n := by
  rcases h5 with ⟨hft, hp⟩ | ⟨hft, hp⟩
  · refine ⟨pdfFailMsg n, ?_, ?_⟩
    · simp [chat_api, chat_api_core, pyTruthy, h1, h2, h3, hft, h4,
        read_pdf_text, hp, pyStr, pyStartsWith, leadsWith]
    · exact strContains_append_left _ _ _
        (strContains_append_right _ _ _ (strContains_refl n))
  · refine ⟨docxFailMsg n, ?_, ?_⟩
    · simp [chat_api, chat_api_core, pyTruthy, h1, h2, h3, hft, h4,
        read_docx_text, hp, pyStr, pyStartsWith, leadsWith, docxMime]
    · exact strContains_append_left _ _ _
        (strContains_append_right _ _ _ (strContains_refl n))

/-- Witness for C5: a DOCX upload whose parser raises gets a 200 answer
naming `report.docx`. -/
theorem C5_extraction_failure_witness :
    ∃ s, (chat_api envDocxFail (.obj reqDocx)).1 = .ok s
      ∧ strContains s "report.docx" :=
  C5_extraction_failure envDocxFail reqDocx "QQ==" "report.docx" [65]
    rfl (by decide) rfl (by rfl) (Or.inr ⟨rfl, rfl⟩)

/-- C6 (confirmed): for every `text/plain` upload, whatever the byte
content obtained from the base64 decode, the UTF-8 decode step is total
(invalid sequences are dropped) and the handler always continues into
the text-content prompt and the `generateText` call. -/
theorem C6_plain_text_total (env : Env) (r : ChatRequest) (fd : String)
    (bytes : Bytes)
    (h1 : r.fileData = some fd) (h2 : fd ≠ "")
    (h3 : r.fileType = some "text/plain")
    (h4 : env.b64decode fd = .ok bytes) :
    chat_api env (.obj r) =
      (.ok (analyze_text_content env (utf8DecodeIgnore bytes) (pyStr r.fileName)),
       [.b64decode fd,
        .generateText (analyze_text_content_prompt (utf8DecodeIgnore bytes)
          (pyStr r.fileName))]) := by
  simp [chat_api, chat_api_core, pyTruthy, h1, h2, h3, h4,
    pyStartsWith, leadsWith, show "text/plain" ≠ docxMime from by decide]

/-- Witness for C6: decoding the invalid-UTF-8 bytes `[0xFF, 0x41]`
drops the `0xFF` byte, yields `"A"`, and the request still reaches the
prompt builder and `generateText`. -/
theorem C6_plain_text_total_witness :
    chat_api envPlain (.obj reqText) =
      (.ok (analyze_text_content envPlain (utf8DecodeIgnore [255, 65]) (pyStr reqText.fileName)),
       [.b64decode "/0E=",
        .generateText (analyze_text_content_prompt (utf8DecodeIgnore [255, 65])
          (pyStr reqText.fileName))])
    ∧ utf8DecodeIgnore [255, 65] = "A" :=
  ⟨C6_plain_text_total envPlain reqText "/0E=" [255, 65] rfl (by decide) rfl (by rfl),
   by decide⟩

/-- C7 is refuted on an undecodable payload: an `image/png` request
whose `fileData` is not valid base64 raises at the decode on line 162,
so `analyzeImage` is never invoked at all — the handler does not pass
the base64 string anywhere and answers with the catch-all's 500. -/
theorem C7_counterexample :
    chat_api envB64Fail (.obj reqImgBad) =
      (.err500 ("An internal server error occurred: Invalid base64-encoded string: number of data characters (1) cannot be 1 more than a multiple of 4"),
       [.b64decode "A"])
    ∧ (chat_api envB64Fail (.obj reqImgBad)).2.any Event.isAI = false := by
  refine ⟨by decide, by decide⟩

/-- C7 (corrected): for every request whose `fileType` has the `image/`
prefix *and whose `fileData` base64-decodes successfully*, the handler
passes the original base64 string from the request (not a re-encoding of
the decoded bytes) together with the declared mime type to
`analyzeImage`, whose request body is the fixed instructional text parts
(Description / Findings / Concerns / Recommendations) plus exactly one
inline binary part carrying that mime type and that base64 payload. -/
theorem C7_image_payload (env : Env) (r : ChatRequest) (fd ft : String)
    (bytes : Bytes)
    (h1 : r.fileData = some fd) (h2 : fd ≠ "")
    (h3 : r.fileType = some ft)
    (h4 : pyStartsWith ft "image/" = true)
    (h5 : env.b64decode fd = .ok bytes) :
    chat_api env (.obj r) =
      (.ok (analyze_image_with_gemini (env.post (.image (analyze_image_payload fd ft)))),
       [.b64decode fd, .analyzeImage fd ft])
    ∧ analyze_image_payload fd ft =
      [ .text "Analyze this medical image and provide:",
        .text "1. **Description**: What the image shows",
        .text "2. **Findings**: Notable observations",
        .text "3. **Concerns**: Any potential issues",
        .text "4. **Recommendations**: Suggested next steps",
        .inlineData ft fd ]
    ∧ (analyze_image_payload fd ft).filter GeminiPart.isInline = [.inlineData ft fd] := by
  have h6 : ft ≠ "" := pyStartsWith_image_ne_empty ft h4
  refine ⟨?_, rfl, by simp [analyze_image_payload, GeminiPart.isInline]⟩
  simp [chat_api, chat_api_core, pyTruthy, h1, h2, h3, h4, h5, h6]

/-- Witness for C7: a decodable `image/png` upload with base64 string
`"QQ=="` posts the fixed text parts plus the single inline part
`(image/png, "QQ==")`. -/
theorem C7_image_payload_witness :
    chat_api envPdfEmpty (.obj reqImg) =
      (.ok (analyze_image_with_gemini (envPdfEmpty.post (.image (analyze_image_payload "QQ==" "image/png")))),
       [.b64decode "QQ==", .analyzeImage "QQ==" "image/png"])
    ∧ analyze_image_payload "QQ==" "image/png" =
      [ .text "Analyze this medical image and provide:",
        .text "1. **Description**: What the image shows",
        .text "2. **Findings**: Notable observations",
        .text "3. **Concerns**: Any potential issues",
        .text "4. **Recommendations**: Suggested next steps",
        .inlineData "image/png" "QQ==" ]
    ∧ (analyze_image_payload "QQ==" "image/png").filter GeminiPart.isInline =
      [.inlineData "image/png" "QQ=="] :=
  C7_image_payload envPdfEmpty reqImg "QQ==" "image/png" [65]
    rfl (by decide) rfl (by decide) (by rfl)

/-- C9 (confirmed): a request whose `message` is absent or empty and in
which `fileData` and `fileType` are not both present is answered 200
with the empty response string, no error and no AI Gateway call. -/
theorem C9_empty_response (env : Env) (r : ChatRequest)
    (h1 : r.message = none ∨ r.message = some "")
    (h2 : r.fileData = none ∨ r.fileType = none) :
    chat_api env (.obj r) = (.ok "", []) := by
  have hm : pyTruthy r.message = false := by
    rcases h1 with h | h <;> simp [pyTruthy, h]
  have hf : (pyTruthy r.fileData && pyTruthy r.fileType) = false := by
    rcases h2 with h | h <;> simp [pyTruthy, h]
  simp [chat_api, chat_api_core, hf, hm]

/-- Witness for C9: the all-absent request gets `{"response": ""}`. -/
theorem C9_empty_response_witness :
    chat_api envPdfEmpty (.obj reqEmpty) = (.ok "", []) :=
  C9_empty_response envPdfEmpty reqEmpty (Or.inl rfl) (Or.inl rfl)

/-- C10 (confirmed): when exactly one of `fileData`/`fileType` is
present, or either is the empty string, the file fields are silently
ignored: no decode, extraction or image analysis happens, and the
request is handled exactly as if no file were attached — the
symptom-description path when `message` is non-empty, the empty-response
branch otherwise. -/
theorem C10_dangling_file_fields (env : Env) (r : ChatRequest)
    (h : (r.fileData.isSome ∧ r.fileType = none)
       ∨ (r.fileData = none ∧ r.fileType.isSome)
       ∨ r.fileData = some "" ∨ r.fileType = some "") :
    chat_api env (.obj r) = chat_api env (.obj ⟨r.message, none, none, none⟩)
    ∧ (chat_api env (.obj r)).2.any Event.isFileOp = false
    ∧ (pyTruthy r.message = true →
        chat_api env (.obj r) =
          (.ok (call_gemini_api (env.post (.text (symptom_prompt (r.message.getD ""))))),
           [.generateText (symptom_prompt (r.message.getD ""))]))
    ∧ (pyTruthy r.message = false → chat_api env (.obj r) = (.ok "", [])) := by
  have hf : (pyTruthy r.fileData && pyTruthy r.fileType) = false := by
    rcases h with ⟨h1, h2⟩ | ⟨h1, h2⟩ | h1 | h1 <;> simp [pyTruthy, *]
  cases hm : pyTruthy r.message with
  | true =>
    refine ⟨?_, ?_, fun _ => ?_, fun hc => by simp [hm] at hc⟩ <;>
      simp [chat_api, chat_api_core, hf, hm, Event.isFileOp,
        show pyTruthy (none : Option String) = false from rfl]
  | false =>
    refine ⟨?_, ?_, fun hc => by simp [hm] at hc, fun _ => ?_⟩ <;>
      simp [chat_api, chat_api_core, hf, hm,
        show pyTruthy (none : Option String) = false from rfl]

/-- Witness for C10: a non-empty message with a dangling `fileData` and
no `fileType` goes down the symptom-description path untouched by any
file operation. -/
theorem C10_dangling_file_fields_witness :
    chat_api envPdfEmpty (.obj reqMsgDangling) =
      chat_api envPdfEmpty (.obj ⟨reqMsgDangling.message, none, none, none⟩)
    ∧ (chat_api envPdfEmpty (.obj reqMsgDangling)).2.any Event.isFileOp = false
    ∧ (pyTruthy reqMsgDangling.message = true →
        chat_api envPdfEmpty (.obj reqMsgDangling) =
          (.ok (call_gemini_api (envPdfEmpty.post (.text (symptom_prompt (reqMsgDangling.message.getD ""))))),
           [.generateText (symptom_prompt (reqMsgDangling.message.getD ""))]))
    ∧ (pyTruthy reqMsgDangling.message = false →
        chat_api envPdfEmpty (.obj reqMsgDangling) = (.ok "", [])) :=
  C10_dangling_file_fields envPdfEmpty reqMsgDangling (Or.inl ⟨rfl, rfl⟩)

end MedicChatbot
